import Mathlib

set_option maxHeartbeats 1000000

/-!
Verification development for the university-support backend's ask-routing
pipeline: the store classifier (`classifyStores`), the campus-mode multi-store
answer loop of the `/ask` handler, the direct-mode error mapping, and the
session-transcript append helper. Each definition is a shallow embedding of
the corresponding JavaScript function; external collaborators (the generative
model, the RAG retrieval service, the host runtime's JSON.parse) appear as
explicit parameters describing their observable outcome.
-/

namespace SmartUni

/-- JSON values as produced by the host runtime's JSON.parse. -/
inductive Json where
  | null : Json
  | bool (b : Bool) : Json
  | num (n : Int) : Json
  | str (s : String) : Json
  | arr (elems : List Json) : Json
  | obj (fields : List (String × Json)) : Json

/-- The observable outcome of the generative-model call inside
`classifyStores`: either the whole call threw (transport/model error), or it
produced some extracted response text (possibly empty). -/
inductive ModelOutcome where
  | error : ModelOutcome
  | ok (txt : String) : ModelOutcome

/-- The literal `{ stores: stores, split_questions: {}, unanswered: [] }`
fallback object built by `classifyStores` (all input stores selected). -/
def fallbackResult (stores : List String) : Json :=
  .obj [("stores", .arr (stores.map .str)),
        ("split_questions", .obj []),
        ("unanswered", .arr [])]

/-- The literal `{ stores: [], split_questions: {}, unanswered: [] }` object
returned by `classifyStores` when the extracted model text is empty. -/
def emptyClassification : Json :=
  .obj [("stores", .arr []), ("split_questions", .obj []), ("unanswered", .arr [])]

/-- JavaScript `s.trim()`: strip whitespace from both ends. -/
def jsTrim (s : String) : String :=
  String.mk (((s.toList.dropWhile Char.isWhitespace).reverse.dropWhile Char.isWhitespace).reverse)

def lbraceChar : Char := Char.ofNat 123

def rbraceChar : Char := Char.ofNat 125

/-- `raw.indexOf("{")` — position of the first opening brace, if any. -/
def firstBrace (raw : String) : Option Nat :=
  raw.toList.findIdx? (fun c => c == lbraceChar)

/-- `raw.lastIndexOf("}")` — position of the last closing brace, if any. -/
def lastBrace (raw : String) : Option Nat :=
  match raw.toList.reverse.findIdx? (fun c => c == rbraceChar) with
  | some i => some (raw.toList.length - 1 - i)
  | none => none

/-- `raw.slice(a, b)` on character positions. -/
def jsSlice (raw : String) (a b : Nat) : String :=
  String.mk ((raw.toList.drop a).take (b - a))

/-- The substring-extraction retry of `classifyStores`: parse the slice
between the first `\x7b` and the last `\x7d` (inclusive), when both exist. -/
def extractParse (jsonParse : String → Option Json) (raw : String) : Option Json :=
  match firstBrace raw, lastBrace raw with
  | some start, some en => jsonParse (jsSlice raw start (en + 1))
  | _, _ => none

/-- Embedding of `classifyStores(geminiKey, stores, question)`.
`jsonParse` stands for the host runtime's `JSON.parse`, returning `none`
exactly when parsing throws; `outcome` is the generative-model call's
observable outcome (the question itself only influences `outcome`, so it is
not a separate argument). A missing key is the empty string (JS falsiness of
`geminiKey`). Mirrors the source: no key → all-stores fallback; call threw →
all-stores fallback; empty extracted text → empty classification; otherwise
strict parse of the trimmed text, then brace-substring parse, then the
all-stores fallback. A successfully parsed value is returned as-is. -/
def classifyStores (jsonParse : String → Option Json) (geminiKey : String)
    (stores : List String) (outcome : ModelOutcome) : Json :=
  if geminiKey = "" then fallbackResult stores
  else
    match outcome with
    | .error => fallbackResult stores
    | .ok txt =>
      if txt = "" then emptyClassification
      else
        let raw := jsTrim txt
        match jsonParse raw with
        | some parsed => parsed
        | none =>
          match extractParse jsonParse raw with
          | some parsed => parsed
          | none => fallbackResult stores

/-- Elements of a JSON array (the empty list when the value is not an array). -/
def arrElems : Json → List Json
  | .arr xs => xs
  | _ => []

/-- Keys of a JSON object (the empty list when the value is not an object). -/
def objKeys : Json → List String
  | .obj fs => fs.map (fun f => f.1)
  | _ => []

/-- Field lookup on a JSON object. -/
def fieldOf (j : Json) (k : String) : Option Json :=
  match j with
  | .obj fs => fs.lookup k
  | _ => none

/-- JavaScript falsiness of a JSON value. -/
def jsFalsy : Json → Bool
  | .null => true
  | .bool b => !b
  | .num n => n == 0
  | .str s => s == ""
  | .arr _ => false
  | .obj _ => false

/-- `j.k || dflt` — the duck-typed field access used by the `/ask` handler on
the classifier's result. -/
def fieldOr (j : Json) (k : String) (dflt : Json) : Json :=
  match fieldOf j k with
  | some v => if jsFalsy v then dflt else v
  | none => dflt

/-- The spec's Classification Result invariant, read off a raw classifier
result the way the `/ask` handler reads it: every element of the `stores`
field is a string belonging to the input store-name list, and every key of the
`split_questions` field occurs in the `stores` field. -/
def classifierInvariant (input : List String) (j : Json) : Prop :=
  (∀ x ∈ arrElems (fieldOr j "stores" (.arr [])), ∃ s, x = Json.str s ∧ s ∈ input) ∧
  (∀ k ∈ objKeys (fieldOr j "split_questions" (.obj [])),
     Json.str k ∈ arrElems (fieldOr j "stores" (.arr [])))

/-- One entry of a student's `accessibleStores` list. A missing/empty
`accountEmail` is the empty string (JS falsiness). -/
structure StoreRef where
  storeName : String
  accountEmail : String

/-- `chunk.retrievedContext` of a grounding chunk. -/
structure RetrievedContext where
  text : Option String

structure Chunk where
  retrievedContext : Option RetrievedContext

structure GroundingMetadata where
  groundingChunks : Option (List Chunk)

/-- The `data` payload of a successful `RAGService.askQuestion` response. -/
structure RagData where
  response_text : Option String
  grounding_metadata : Option GroundingMetadata

/-- A RAG response object `\x7b success, data \x7d` (either field may be
missing/falsy, which the handler treats as failure). -/
structure RagResp where
  success : Bool
  data : Option RagData

/-- The observable outcome of one `RAGService.askQuestion(...)` call as seen
by the `/ask` handler: the call threw, or it resolved to a nullable response
object. -/
inductive RagOutcome where
  | throw (msg : String) : RagOutcome
  | resp (r : Option RagResp) : RagOutcome

/-- Whether an outcome trips `!ragResp || !ragResp.success || !ragResp.data`
(the clean-failure signal; a thrown call is not a clean failure). -/
def ragCleanFail : RagOutcome → Bool
  | .throw _ => false
  | .resp none => true
  | .resp (some r) => !r.success || r.data.isNone

/-- Whether an outcome is a fully successful RAG response. -/
def ragSucceeds : RagOutcome → Bool
  | .resp (some r) => r.success && r.data.isSome
  | _ => false

/-- One entry of `ragResults`. -/
structure RagResult where
  store : String
  answerText : String
  groundingChunks : List Chunk

/-- `splitQuestions[store] || question` — the sub-question sent to a store. -/
def qFor (split_questions : List (String × String)) (question store : String) : String :=
  match split_questions.lookup store with
  | some q => if q = "" then question else q
  | none => question

/-- `ragResp.data.grounding_metadata?.groundingChunks || []`. -/
def chunkList (d : RagData) : List Chunk :=
  match d.grounding_metadata with
  | some gm => match gm.groundingChunks with
    | some cs => cs
    | none => []
  | none => []

/-- The texts pushed onto `allGrounding` from a store's grounding chunks:
`chunk.retrievedContext || \x7b\x7d`, keep `ctx.text` when truthy. -/
def chunkTexts (cs : List Chunk) : List String :=
  cs.filterMap (fun c =>
    match c.retrievedContext with
    | some ctx =>
      match ctx.text with
      | some t => if t = "" then none else some t
      | none => none
    | none => none)

/-- Result of the per-store retrieval loop of the `/ask` handler: either the
first clean failure (with the sub-question that was asked and the list of
stores actually queried, in order), or the completed `ragResults` together
with the collected `allGrounding` texts and the queried stores. -/
inductive LoopResult where
  | failed (failedStore : String) (qUsed : String) (queried : List String) : LoopResult
  | ok (results : List RagResult) (grounding : List String) (queried : List String) : LoopResult

/-- Embedding of the `for (const store of predictedStores)` retrieval loop
(part_001 lines 491–578): a clean failure returns immediately; a thrown call
is caught, recorded as an error-text result with no grounding, and iteration
continues; a success records the answer text and collects truthy grounding
texts. `rag` gives each `RAGService.askQuestion(geminiKey, [store], q)`'s
outcome. -/
def ragLoop (rag : String → String → RagOutcome)
    (split_questions : List (String × String)) (question : String) :
    List String → LoopResult
  | [] => .ok [] [] []
  | store :: rest =>
    let qForStore := qFor split_questions question store
    match rag store qForStore with
    | .throw msg =>
      let r : RagResult :=
        { store := store,
          answerText := "Error processing " ++ store ++ ": " ++ msg,
          groundingChunks := [] }
      match ragLoop rag split_questions question rest with
      | .failed f fq qs => .failed f fq (store :: qs)
      | .ok rs g qs => .ok (r :: rs) g (store :: qs)
    | .resp none => .failed store qForStore [store]
    | .resp (some ragResp) =>
      if ragResp.success then
        match ragResp.data with
        | some d =>
          let answerText := d.response_text.getD ""
          let chunks := chunkList d
          match ragLoop rag split_questions question rest with
          | .failed f fq qs => .failed f fq (store :: qs)
          | .ok rs g qs =>
            .ok ({ store := store, answerText := answerText, groundingChunks := chunks } :: rs)
               (chunkTexts chunks ++ g) (store :: qs)
        | none => .failed store qForStore [store]
      else .failed store qForStore [store]

/-- `accessible.find(x => x.storeName === store)?.accountEmail || null`. -/
def searchedInOf (accessible : List StoreRef) (store : String) : Option String :=
  match accessible.find? (fun x => x.storeName == store) with
  | some dept => if dept.accountEmail = "" then none else some dept.accountEmail
  | none => none

/-- The JSON body sent by `res.json(...)` in campus mode; `none` marks a key
the branch's body does not include. -/
structure ResponseBody where
  answer : String
  storesUsed : Option (List String)
  grounding : Option (List String)
  unanswered : Option Json
  searchedIn : Option (Option String)
  failedStore : Option String
  totalGrounding : Option Nat

/-- The message object appended to the session transcript. -/
structure Message where
  question : Option String
  answer : String
  storesUsed : List String
  grounding : List String
  unresolvedParts : Option Json
  searchedIn : Option (Option String)
  ragError : Bool
  ragResultCount : Option Nat

/-- One provider-log entry (`appendProviderLog` document). -/
structure ProviderLogEntry where
  provider_email : Option String
  user_email : String
  store_name : String
  question : String
  response : Option String
  grounding_count : Option Nat
  error : Option String

/-- `r.answerText.substring(0, 500) + "..."` (success-path provider log). -/
def truncateLog (s : String) : String :=
  String.mk (s.toList.take 500) ++ "..."

/-- The provider-log entry written for one successful `ragResults` entry
(part_001 lines 629–645). -/
def successLog (accessible : List StoreRef) (email question : String)
    (split_questions : List (String × String)) (r : RagResult) : ProviderLogEntry :=
  { provider_email := searchedInOf accessible r.store,
    user_email := email,
    store_name := r.store,
    question := qFor split_questions question r.store,
    response := some (truncateLog r.answerText),
    grounding_count := some r.groundingChunks.length,
    error := none }

/-- The caller-observable effect of one campus-mode `/ask` request: the
response body, the message appended to the session transcript (if any), the
provider-log entries appended, and which stores were actually queried. -/
structure AskResult where
  response : ResponseBody
  sessionAppend : Option Message
  providerLogs : List ProviderLogEntry
  queried : List String

/-- Embedding of the campus-search branch of `router.get("/ask")` (part_001
lines 392–650), starting after the student record is read. `predictedStores`,
`split_questions` and `unanswered` are the values extracted from the
classifier result (`classification.stores || []` etc.); `rag` gives each
retrieval call's outcome. -/
def campusAsk (rag : String → String → RagOutcome) (accessible : List StoreRef)
    (email question : String) (predictedStores : List String)
    (split_questions : List (String × String)) (unanswered : Json) : AskResult :=
  let storeNames := accessible.map (fun s => s.storeName)
  if storeNames.length = 0 then
    { response := { answer := "No RAG stores available for your account.",
                    storesUsed := some [], grounding := some [], unanswered := none,
                    searchedIn := none, failedStore := none, totalGrounding := none },
      sessionAppend := none, providerLogs := [], queried := [] }
  else if predictedStores.length = 0 then
    let answerText := "Sorry, none of the departments can answer this."
    { response := { answer := answerText, storesUsed := some [], grounding := none,
                    unanswered := some unanswered, searchedIn := none,
                    failedStore := none, totalGrounding := none },
      sessionAppend := some { question := some question, answer := answerText,
                              storesUsed := [], grounding := [],
                              unresolvedParts := some unanswered, searchedIn := none,
                              ragError := false, ragResultCount := none },
      providerLogs := [], queried := [] }
  else
    match ragLoop rag split_questions question predictedStores with
    | .failed store qUsed queried =>
      let answerText := "Sorry we didn't find any information related to this."
      let searchedIn := searchedInOf accessible store
      { response := { answer := answerText, storesUsed := none, grounding := none,
                      unanswered := none, searchedIn := some searchedIn,
                      failedStore := some store, totalGrounding := none },
        sessionAppend := some { question := some question, answer := answerText,
                                storesUsed := [store], grounding := [],
                                unresolvedParts := none, searchedIn := some searchedIn,
                                ragError := true, ragResultCount := none },
        providerLogs :=
          match searchedIn with
          | some providerEmail =>
            [{ provider_email := some providerEmail, user_email := email,
               store_name := store, question := qUsed, response := none,
               grounding_count := none, error := some "RAG call failed" }]
          | none => [],
        queried := queried }
    | .ok results grounding queried =>
      let finalAnswer :=
        if results.length = 1 then
          match results with
          | r :: _ => r.answerText
          | [] => ""
        else
          String.intercalate "\n\n"
            (results.map (fun r => "**" ++ r.store ++ "**:\n" ++ r.answerText))
      { response := { answer := finalAnswer, storesUsed := some predictedStores,
                      grounding := some (grounding.take 10), unanswered := none,
                      searchedIn := none, failedStore := none,
                      totalGrounding := some grounding.length },
        sessionAppend := some { question := some question, answer := finalAnswer,
                                storesUsed := predictedStores, grounding := grounding,
                                unresolvedParts := none, searchedIn := none,
                                ragError := false, ragResultCount := some results.length },
        providerLogs := results.map (successLog accessible email question split_questions),
        queried := queried }

/-- Whether `pat` occurs as a contiguous sublist of `s`. -/
def listInfixOf (pat s : List Char) : Bool :=
  match s with
  | [] => pat.isEmpty
  | _ :: rest => pat.isPrefixOf s || listInfixOf pat rest

/-- JavaScript `s.includes(pat)`. -/
def includesSub (s pat : String) : Bool :=
  listInfixOf pat.toList s.toList

/-- The error body sent by the direct-mode catch handler. -/
structure ErrorResponse where
  status : Nat
  error : String
  details : String
  suggestion : String

/-- Embedding of the direct-mode Gemini error mapping (part_001 lines
360–389): the thrown error's message text selects exactly one status/message
pair, and the body always carries `error`, `details` (the raw message) and a
fixed `suggestion`. -/
def geminiErrorResponse (msg : String) : ErrorResponse :=
  let base : ErrorResponse :=
    { status := 500, error := "Failed to call Gemini API", details := msg,
      suggestion := "Check your API key, internet connection, and try a different model if available" }
  if includesSub msg "API key" || includesSub msg "auth" then
    { base with status := 401, error := "Invalid or unauthorized API key" }
  else if includesSub msg "quota" || includesSub msg "exceeded" then
    { base with status := 429, error := "API quota exceeded or rate limited" }
  else if includesSub msg "network" || includesSub msg "connect" then
    { base with status := 503, error := "Network error connecting to Gemini API" }
  else if includesSub msg "model" then
    { base with status := 400, error := "Gemini model not available" }
  else base

/-- Maximal runs of non-whitespace characters, left to right (`cur` holds the
reversed characters of the word being read). -/
def wordsAux (cur : List Char) : List Char → List String
  | [] => if cur = [] then [] else [String.mk cur.reverse]
  | c :: rest =>
    if c.isWhitespace then
      if cur = [] then wordsAux [] rest
      else String.mk cur.reverse :: wordsAux [] rest
    else wordsAux (c :: cur) rest

/-- `trimmed.split(/\s+/)` on an already-trimmed string: its whitespace-
separated words. -/
def wordsOf (s : List Char) : List String :=
  wordsAux [] s

/-- Embedding of `generateSessionName(question)`: empty (or non-string,
collapsed to empty by the caller's `|| ""`) question gives "New Session";
otherwise the trimmed question, shortened to its first 10 whitespace-separated
words plus "..." when longer. -/
def generateSessionName (question : String) : String :=
  if question = "" then "New Session"
  else
    let trimmed := jsTrim question
    let words := wordsOf trimmed.toList
    if words.length ≤ 10 then trimmed
    else String.intercalate " " (words.take 10) ++ "..."

/-- A stored session file's content; `messages` is optional because a parsed
file may lack the field (`session.messages || []`). -/
structure Session where
  sessionId : String
  sessionName : String
  email : String
  createdAt : String
  updatedAt : String
  messages : Option (List Message)

/-- What the session file held before `appendMessageToSessionFile` ran:
absent, unreadable/unparsable, or a parsed session object. -/
inductive FileState where
  | absent : FileState
  | unparsable : FileState
  | session (s : Session) : FileState

/-- Embedding of `appendMessageToSessionFile(email, sessionId, messageObj)`
(part_001 lines 54–74): on a readable parsed session, push the message and
refresh `updatedAt`; on any read/parse failure, write a fresh session holding
exactly the one message, named from the message's question. `now` is the
current ISO timestamp. -/
def appendMessageToSessionFile (now email sessionId : String)
    (prev : FileState) (messageObj : Message) : Session :=
  match prev with
  | .session s =>
    { s with messages := some ((s.messages.getD []) ++ [messageObj]), updatedAt := now }
  | _ =>
    { sessionId := sessionId,
      sessionName := generateSessionName (messageObj.question.getD ""),
      email := email, createdAt := now, updatedAt := now,
      messages := some [messageObj] }

/-- The per-store answer text recorded for a successful outcome
(`ragResp.data.response_text || ""`). -/
def answerOf : RagOutcome → String
  | .resp (some r) =>
    match r.data with
    | some d => d.response_text.getD ""
    | none => ""
  | _ => ""

/-- The `ragResults` entry recorded for a store whose outcome succeeded. -/
def okResultOf (store : String) : RagOutcome → RagResult
  | .resp (some r) =>
    match r.data with
    | some d => { store := store, answerText := d.response_text.getD "",
                  groundingChunks := chunkList d }
    | none => { store := store, answerText := "", groundingChunks := [] }
  | _ => { store := store, answerText := "", groundingChunks := [] }

/-- Concatenation of a list of lists (the order `allGrounding` accumulates). -/
def concatAll : List (List String) → List String
  | [] => []
  | x :: xs => x ++ concatAll xs

/-- A well-formed model output whose parsed value names a store that is not in
the input list: `\x7b"stores":["evil"]\x7d`. -/
def cexText : String := "\x7b\"stores\":[\"evil\"]\x7d"

/-- The value JSON.parse yields on `cexText`. -/
def cexJson : Json := .obj [("stores", .arr [.str "evil"])]

/-- A concrete stand-in for JSON.parse, agreeing with it on the one string
`classifyStores` feeds it in the counterexample run. -/
def cexParse : String → Option Json :=
  fun s => if s = jsTrim cexText then some cexJson else none

def refLibrary : StoreRef := { storeName := "library", accountEmail := "lib@u.edu" }

def refFinance : StoreRef := { storeName := "finance", accountEmail := "fin@u.edu" }

def chunkA : Chunk := { retrievedContext := some { text := some "factA" } }

def dataA : RagData :=
  { response_text := some "ansA",
    grounding_metadata := some { groundingChunks := some [chunkA] } }

def dataB : RagData := { response_text := some "ansB", grounding_metadata := none }

/-- A RAG service in which every store's retrieval succeeds. -/
def ragAllOk : String → String → RagOutcome := fun s _ =>
  if s = "library" then .resp (some { success := true, data := some dataA })
  else .resp (some { success := true, data := some dataB })

/-- A RAG service in which every retrieval call resolves to a null response
(a clean failure signal). -/
def ragAllFail : String → String → RagOutcome := fun _ _ => .resp none

/-- A concrete message object for exercising the session-append helper. -/
def msgHello : Message :=
  { question := some "hello there", answer := "hi", storesUsed := [], grounding := [],
    unresolvedParts := none, searchedIn := none, ragError := false, ragResultCount := none }

/-! ### Helper lemmas -/

theorem classifierInvariant_fallback (stores : List String) :
    classifierInvariant stores (fallbackResult stores) := by
  constructor
  · intro x hx
    have he : arrElems (fieldOr (fallbackResult stores) "stores" (.arr []))
        = stores.map Json.str := rfl
    rw [he] at hx
    obtain ⟨s, hs, rfl⟩ := List.mem_map.mp hx
    exact ⟨s, rfl, hs⟩
  · intro k hk
    have he : objKeys (fieldOr (fallbackResult stores) "split_questions" (.obj [])) = [] := rfl
    rw [he] at hk
    cases hk

theorem classifierInvariant_empty (stores : List String) :
    classifierInvariant stores emptyClassification := by
  constructor
  · intro x hx
    have he : arrElems (fieldOr emptyClassification "stores" (.arr [])) = [] := rfl
    rw [he] at hx
    cases hx
  · intro k hk
    have he : objKeys (fieldOr emptyClassification "split_questions" (.obj [])) = [] := rfl
    rw [he] at hk
    cases hk

/-! ### Claims about the classifier (C1, C5) -/

/-- C1 (counterexample): with input store list `["library"]` and a
well-formed model output whose `stores` field is `["evil"]`, the classifier
returns that JSON unvalidated, so its `stores` field is not a subset of the
input list — the claimed invariant fails. -/
theorem claim_C1_cex :
    ¬ classifierInvariant ["library"]
        (classifyStores cexParse "key" ["library"] (.ok cexText)) := by
  intro h
  have hres : classifyStores cexParse "key" ["library"] (.ok cexText) = cexJson := rfl
  rw [hres] at h
  have hmem : Json.str "evil" ∈ arrElems (fieldOr cexJson "stores" (.arr [])) := by
    have he : arrElems (fieldOr cexJson "stores" (.arr [])) = [Json.str "evil"] := rfl
    rw [he]
    exact List.mem_singleton.mpr rfl
  obtain ⟨s, hs, hin⟩ := h.1 (Json.str "evil") hmem
  injection hs with hs
  subst hs
  simp at hin

/-- C1 (amended): the Classification Result invariant — `stores` a subset of
the input list and every `split_questions` key an element of `stores` — holds
whenever the classifier result comes from one of its fallback paths (missing
API key, model/transport error, empty model output, or model output that
parses neither strictly nor after brace-substring extraction). When the model
output parses as JSON, the parsed value is returned unvalidated and the
invariant can fail. -/
theorem claim_C1_amended (jsonParse : String → Option Json) (geminiKey : String)
    (stores : List String) (outcome : ModelOutcome)
    (h : geminiKey = "" ∨ outcome = .error ∨ outcome = .ok "" ∨
         (∃ txt, outcome = .ok txt ∧ jsonParse (jsTrim txt) = none ∧
            extractParse jsonParse (jsTrim txt) = none)) :
    classifierInvariant stores (classifyStores jsonParse geminiKey stores outcome) := by
  have hfb : classifyStores jsonParse geminiKey stores outcome = fallbackResult stores ∨
      classifyStores jsonParse geminiKey stores outcome = emptyClassification := by
    by_cases hk : geminiKey = ""
    · left; simp [classifyStores, hk]
    · rcases h with h | h | h | ⟨txt, hout, h1, h2⟩
      · exact absurd h hk
      · left; simp [classifyStores, hk, h]
      · right; simp [classifyStores, hk, h]
      · subst hout
        by_cases ht : txt = ""
        · right; simp [classifyStores, hk, ht]
        · left; simp [classifyStores, hk, ht, h1, h2]
  rcases hfb with h | h <;> rw [h]
  · exact classifierInvariant_fallback stores
  · exact classifierInvariant_empty stores

/-- C1 (witness): the amended claim at a concrete fallback input. -/
theorem claim_C1_witness :
    classifierInvariant ["library"]
      (classifyStores (fun _ => none) "" ["library"] .error) :=
  claim_C1_amended (fun _ => none) "" ["library"] .error (Or.inl rfl)

/-- C5 (counterexample): when the generative model's extracted output text is
empty — a text that cannot be parsed as JSON by either strategy — the
classifier does not return the all-stores fallback: it returns the
empty-stores object `\x7b stores: [], split_questions: \x7b\x7d,
unanswered: [] \x7d` instead. -/
theorem claim_C5_cex :
    classifyStores (fun _ => none) "key" ["library"] (.ok "")
      ≠ fallbackResult ["library"] := by
  intro h
  have he : emptyClassification = fallbackResult ["library"] := h
  simp [emptyClassification, fallbackResult] at he

/-- C5 (amended): the classifier never throws past its boundary (it is a
total function of the model outcome), and it returns the all-stores fallback
whenever the model/transport call errors, or whenever the model output is
nonempty and parses neither strictly nor after brace-substring extraction.
Exception forced by the counterexample: when the extracted model output text
is empty, it instead returns the empty classification (no stores selected). -/
theorem claim_C5_amended (jsonParse : String → Option Json) (geminiKey : String)
    (stores : List String) (outcome : ModelOutcome) :
    (outcome = .error →
       classifyStores jsonParse geminiKey stores outcome = fallbackResult stores) ∧
    (∀ txt, outcome = .ok txt → txt ≠ "" → jsonParse (jsTrim txt) = none →
       extractParse jsonParse (jsTrim txt) = none →
       classifyStores jsonParse geminiKey stores outcome = fallbackResult stores) ∧
    (geminiKey ≠ "" → outcome = .ok "" →
       classifyStores jsonParse geminiKey stores outcome = emptyClassification) := by
  refine ⟨?_, ?_, ?_⟩
  · intro h
    by_cases hk : geminiKey = "" <;> simp [classifyStores, hk, h]
  · intro txt hout ht h1 h2
    by_cases hk : geminiKey = "" <;> simp [classifyStores, hk, hout, ht, h1, h2]
  · intro hk h
    simp [classifyStores, hk, h]

/-- C5 (witness): the amended claim at a concrete unparseable model output. -/
theorem claim_C5_witness :
    classifyStores (fun _ => none) "key" ["library"] (.ok "not json")
      = fallbackResult ["library"] :=
  (claim_C5_amended (fun _ => none) "key" ["library"] (.ok "not json")).2.1
    "not json" rfl (by decide) rfl rfl

/-! ### Direct-mode error taxonomy (C9) -/

/-- C9: every direct-mode Gemini error is mapped by its message text to
exactly one user-facing category — authentication/API-key text → 401,
otherwise quota/rate-limit text → 429, otherwise network/connectivity text →
503, otherwise model text → 400, otherwise 500 — and every such response body
carries an `error` message, the raw message as `details`, and a fixed
`suggestion`. -/
theorem claim_C9 (msg : String) :
    (geminiErrorResponse msg).details = msg ∧
    (geminiErrorResponse msg).suggestion =
      "Check your API key, internet connection, and try a different model if available" ∧
    ((includesSub msg "API key" || includesSub msg "auth") = true →
       (geminiErrorResponse msg).status = 401 ∧
       (geminiErrorResponse msg).error = "Invalid or unauthorized API key") ∧
    ((includesSub msg "API key" || includesSub msg "auth") = false →
     (includesSub msg "quota" || includesSub msg "exceeded") = true →
       (geminiErrorResponse msg).status = 429 ∧
       (geminiErrorResponse msg).error = "API quota exceeded or rate limited") ∧
    ((includesSub msg "API key" || includesSub msg "auth") = false →
     (includesSub msg "quota" || includesSub msg "exceeded") = false →
     (includesSub msg "network" || includesSub msg "connect") = true →
       (geminiErrorResponse msg).status = 503 ∧
       (geminiErrorResponse msg).error = "Network error connecting to Gemini API") ∧
    ((includesSub msg "API key" || includesSub msg "auth") = false →
     (includesSub msg "quota" || includesSub msg "exceeded") = false →
     (includesSub msg "network" || includesSub msg "connect") = false →
     includesSub msg "model" = true →
       (geminiErrorResponse msg).status = 400 ∧
       (geminiErrorResponse msg).error = "Gemini model not available") ∧
    ((includesSub msg "API key" || includesSub msg "auth") = false →
     (includesSub msg "quota" || includesSub msg "exceeded") = false →
     (includesSub msg "network" || includesSub msg "connect") = false →
     includesSub msg "model" = false →
       (geminiErrorResponse msg).status = 500 ∧
       (geminiErrorResponse msg).error = "Failed to call Gemini API") ∧
    ((geminiErrorResponse msg).status = 401 ∨ (geminiErrorResponse msg).status = 429 ∨
     (geminiErrorResponse msg).status = 503 ∨ (geminiErrorResponse msg).status = 400 ∨
     (geminiErrorResponse msg).status = 500) := by
  cases h1 : includesSub msg "API key" || includesSub msg "auth" <;>
    cases h2 : includesSub msg "quota" || includesSub msg "exceeded" <;>
      cases h3 : includesSub msg "network" || includesSub msg "connect" <;>
        cases h4 : includesSub msg "model" <;>
          simp [geminiErrorResponse, h1, h2, h3, h4]

/-- C9 (witness): a quota-style message is mapped to status 429. -/
theorem claim_C9_witness :
    (geminiErrorResponse "quota was hit").status = 429 ∧
    (geminiErrorResponse "quota was hit").details = "quota was hit" := by
  have h := claim_C9 "quota was hit"
  exact ⟨(h.2.2.2.1 (by decide) (by decide)).1, h.1⟩

/-! ### Session append (C10) -/

/-- C10: appending a message never loses it — when the stored session file is
absent or unparsable, a fresh session is written whose `messages` list is
exactly the one message and whose name derives from the message's question;
when a session was parsed, the message becomes the last element of its
`messages` list, `updatedAt` is refreshed, and the prior messages, creation
time and name are unchanged. -/
theorem claim_C10 (now email sessionId : String) (prev : FileState) (m : Message) :
    ((prev = .absent ∨ prev = .unparsable) →
       (appendMessageToSessionFile now email sessionId prev m).messages = some [m] ∧
       (appendMessageToSessionFile now email sessionId prev m).sessionName
         = generateSessionName (m.question.getD "")) ∧
    (∀ s, prev = .session s →
       (appendMessageToSessionFile now email sessionId prev m).messages
         = some ((s.messages.getD []) ++ [m]) ∧
       (appendMessageToSessionFile now email sessionId prev m).updatedAt = now ∧
       (appendMessageToSessionFile now email sessionId prev m).createdAt = s.createdAt ∧
       (appendMessageToSessionFile now email sessionId prev m).sessionName = s.sessionName) := by
  constructor
  · rintro (h | h) <;> subst h <;> exact ⟨rfl, rfl⟩
  · rintro s rfl
    exact ⟨rfl, rfl, rfl, rfl⟩

/-- C10 (witness): appending onto an absent file stores exactly the message,
with the session named from its question. -/
theorem claim_C10_witness :
    (appendMessageToSessionFile "t0" "u@x" "s1" .absent msgHello).messages
        = some [msgHello] ∧
    (appendMessageToSessionFile "t0" "u@x" "s1" .absent msgHello).sessionName
        = "hello there" := by
  have h := (claim_C10 "t0" "u@x" "s1" .absent msgHello).1 (Or.inl rfl)
  exact ⟨h.1, h.2.trans (by decide)⟩

/-! ### Retrieval-loop lemmas -/

theorem okResultOf_store (s : String) (o : RagOutcome) : (okResultOf s o).store = s := by
  cases o with
  | throw m => rfl
  | resp r =>
    cases r with
    | none => rfl
    | some rr => cases hd : rr.data <;> simp [okResultOf, hd]

theorem okResultOf_answerText (s : String) (o : RagOutcome) :
    (okResultOf s o).answerText = answerOf o := by
  cases o with
  | throw m => rfl
  | resp r =>
    cases r with
    | none => rfl
    | some rr =>
      cases h : rr.data <;> simp [okResultOf, answerOf, h]

/-- When every selected store's retrieval succeeds, the loop completes with
one result per store in order, collecting all grounding texts in order. -/
theorem ragLoop_all_ok (rag : String → String → RagOutcome)
    (sq : List (String × String)) (q : String) (stores : List String)
    (h : ∀ s ∈ stores, ragSucceeds (rag s (qFor sq q s)) = true) :
    ragLoop rag sq q stores =
      .ok (stores.map (fun s => okResultOf s (rag s (qFor sq q s))))
          (concatAll (stores.map
            (fun s => chunkTexts (okResultOf s (rag s (qFor sq q s))).groundingChunks)))
          stores := by
  induction stores with
  | nil => rfl
  | cons s rest ih =>
    have hs := h s (List.mem_cons_self s rest)
    have hrest : ∀ x ∈ rest, ragSucceeds (rag x (qFor sq q x)) = true :=
      fun x hx => h x (List.mem_cons_of_mem s hx)
    cases hcall : rag s (qFor sq q s) with
    | throw m => rw [hcall] at hs; simp [ragSucceeds] at hs
    | resp o =>
      cases o with
      | none => rw [hcall] at hs; simp [ragSucceeds] at hs
      | some r =>
        cases hd : r.data with
        | none => rw [hcall] at hs; simp [ragSucceeds, hd] at hs
        | some d =>
          have hsucc : r.success = true := by
            rw [hcall] at hs; simp [ragSucceeds, hd] at hs; exact hs
          simp [ragLoop, hcall, hsucc, hd, ih hrest, okResultOf, concatAll]

/-- When no store of `pre` trips the clean-failure signal and `store` does,
the loop short-circuits at `store`: the stores after it are never queried. -/
theorem ragLoop_first_fail (rag : String → String → RagOutcome)
    (sq : List (String × String)) (q : String) (pre : List String) (store : String)
    (rest : List String)
    (hpre : ∀ s ∈ pre, ragCleanFail (rag s (qFor sq q s)) = false)
    (hfail : ragCleanFail (rag store (qFor sq q store)) = true) :
    ragLoop rag sq q (pre ++ store :: rest)
      = .failed store (qFor sq q store) (pre ++ [store]) := by
  induction pre with
  | nil =>
    cases hcall : rag store (qFor sq q store) with
    | throw m => rw [hcall] at hfail; simp [ragCleanFail] at hfail
    | resp o =>
      cases o with
      | none => simp [ragLoop, hcall]
      | some r =>
        rw [hcall] at hfail
        by_cases hsu : r.success = true
        · cases hd : r.data with
          | some d => simp [ragCleanFail, hsu, hd] at hfail
          | none => simp [ragLoop, hcall, hsu, hd]
        · have hsu' : r.success = false := by
            cases hb : r.success
            · rfl
            · exact absurd hb hsu
          simp [ragLoop, hcall, hsu']
  | cons s pre' ih =>
    have hsOk := hpre s (List.mem_cons_self s pre')
    have hpre' : ∀ x ∈ pre', ragCleanFail (rag x (qFor sq q x)) = false :=
      fun x hx => hpre x (List.mem_cons_of_mem s hx)
    cases hcall : rag s (qFor sq q s) with
    | throw m =>
      simp [ragLoop, hcall, ih hpre']
    | resp o =>
      rw [hcall] at hsOk
      cases o with
      | none => simp [ragCleanFail] at hsOk
      | some r =>
        cases hd : r.data with
        | none => simp [ragCleanFail, hd] at hsOk
        | some d =>
          have hsucc : r.success = true := by
            simp [ragCleanFail, hd] at hsOk; exact hsOk
          simp [ragLoop, hcall, hsucc, hd, ih hpre']

/-! ### Campus-mode claims (C2, C3, C4, C6, C7, C8) -/

/-- C2: when every selected store's retrieval succeeds, a single selected
store's answer text is returned unmodified, and two or more selected stores
yield the per-store sections `**store**:\n<answer>` joined by a blank line,
in the order the classifier returned the stores. -/
theorem claim_C2 (rag : String → String → RagOutcome) (accessible : List StoreRef)
    (email question s0 : String) (rest : List String)
    (sq : List (String × String)) (ua : Json)
    (hacc : accessible ≠ [])
    (hok : ∀ s ∈ s0 :: rest, ragSucceeds (rag s (qFor sq question s)) = true) :
    (campusAsk rag accessible email question (s0 :: rest) sq ua).response.answer =
      if rest = [] then answerOf (rag s0 (qFor sq question s0))
      else String.intercalate "\n\n"
        ((s0 :: rest).map
          (fun s => "**" ++ s ++ "**:\n" ++ answerOf (rag s (qFor sq question s)))) := by
  have hloop := ragLoop_all_ok rag sq question (s0 :: rest) hok
  simp only [campusAsk, hloop, List.length_map, List.length_eq_zero, hacc, if_false,
    List.length_cons, Nat.succ_ne_zero, if_neg hacc]
  cases rest with
  | nil =>
    simp [okResultOf_answerText]
  | cons r1 rs =>
    simp [List.map_map, Function.comp_def, okResultOf_store, okResultOf_answerText]

/-- C2 (witness): two successful stores produce the labelled two-section
merged answer. -/
theorem claim_C2_witness :
    (campusAsk ragAllOk [refLibrary, refFinance] "u@x" "q"
        ["library", "finance"] [] Json.null).response.answer
      = "**library**:\nansA\n\n**finance**:\nansB" := by
  have h := claim_C2 ragAllOk [refLibrary, refFinance] "u@x" "q" "library" ["finance"]
    [] Json.null (List.cons_ne_nil _ _) (by decide)
  rw [h]
  decide

/-- C3: in a campus-mode request, the first selected store whose retrieval
returns a clean failure signal short-circuits the whole request: the answer is
the fixed no-information text, `failedStore` is that store, `searchedIn` is
the owning provider's account email, no later selected store is queried, and
exactly one provider-log entry with `error: "RAG call failed"` is appended for
that provider. -/
theorem claim_C3 (rag : String → String → RagOutcome) (accessible : List StoreRef)
    (email question : String) (pre : List String) (store : String) (rest : List String)
    (sq : List (String × String)) (ua : Json) (e : String)
    (hacc : accessible ≠ [])
    (hpre : ∀ s ∈ pre, ragCleanFail (rag s (qFor sq question s)) = false)
    (hfail : ragCleanFail (rag store (qFor sq question store)) = true)
    (hdept : searchedInOf accessible store = some e) :
    (campusAsk rag accessible email question (pre ++ store :: rest) sq ua).response.answer
        = "Sorry we didn't find any information related to this." ∧
    (campusAsk rag accessible email question (pre ++ store :: rest) sq ua).response.failedStore
        = some store ∧
    (campusAsk rag accessible email question (pre ++ store :: rest) sq ua).response.searchedIn
        = some (some e) ∧
    (campusAsk rag accessible email question (pre ++ store :: rest) sq ua).queried
        = pre ++ [store] ∧
    (campusAsk rag accessible email question (pre ++ store :: rest) sq ua).providerLogs
        = [{ provider_email := some e, user_email := email, store_name := store,
             question := qFor sq question store, response := none,
             grounding_count := none, error := some "RAG call failed" }] := by
  have hloop := ragLoop_first_fail rag sq question pre store rest hpre hfail
  simp [campusAsk, hloop, List.length_map, List.length_eq_zero, hacc, hdept]

/-- C3 (witness): with both stores' retrieval resolving to a null response,
the first selected store short-circuits the request. -/
theorem claim_C3_witness :
    (campusAsk ragAllFail [refLibrary, refFinance] "u@x" "q"
        ["library", "finance"] [] Json.null).response.failedStore = some "library" ∧
    (campusAsk ragAllFail [refLibrary, refFinance] "u@x" "q"
        ["library", "finance"] [] Json.null).queried = ["library"] ∧
    (campusAsk ragAllFail [refLibrary, refFinance] "u@x" "q"
        ["library", "finance"] [] Json.null).providerLogs
      = [{ provider_email := some "lib@u.edu", user_email := "u@x",
           store_name := "library", question := "q", response := none,
           grounding_count := none, error := some "RAG call failed" }] := by
  have h := claim_C3 ragAllFail [refLibrary, refFinance] "u@x" "q" [] "library"
    ["finance"] [] Json.null "lib@u.edu" (List.cons_ne_nil _ _)
    (fun s hs => absurd hs (List.not_mem_nil s)) rfl rfl
  exact ⟨h.2.1, h.2.2.2.1, h.2.2.2.2⟩

/-- C4: a store whose retrieval call throws is caught locally — its
`ragResults` entry records the error text with empty grounding, and the loop
continues with the remaining selected stores instead of aborting. -/
theorem claim_C4 (rag : String → String → RagOutcome) (sq : List (String × String))
    (question store msg : String) (rest : List String)
    (h : rag store (qFor sq question store) = .throw msg) :
    (∀ rs g qs, ragLoop rag sq question rest = .ok rs g qs →
       ragLoop rag sq question (store :: rest) =
         .ok ({ store := store, answerText := "Error processing " ++ store ++ ": " ++ msg,
                groundingChunks := [] } :: rs) g (store :: qs)) ∧
    (∀ f fq qs, ragLoop rag sq question rest = .failed f fq qs →
       ragLoop rag sq question (store :: rest) = .failed f fq (store :: qs)) := by
  constructor
  · intro rs g qs hr
    simp [ragLoop, h, hr]
  · intro f fq qs hr
    simp [ragLoop, h, hr]

/-- C4 (witness): a throwing store yields an error-text result and an empty
continuation still runs to completion. -/
theorem claim_C4_witness :
    ragLoop (fun _ _ => RagOutcome.throw "boom") [] "q" ["library"]
      = .ok [{ store := "library", answerText := "Error processing library: boom",
               groundingChunks := [] }] [] ["library"] :=
  (claim_C4 (fun _ _ => RagOutcome.throw "boom") [] "q" "library" "boom" [] rfl).1
    [] [] [] rfl

/-- C6 (counterexample): with zero accessible stores, nothing is appended to
the session transcript — the fixed answer is not persisted, refuting the
claim's "the turn is recorded" conjunct. -/
theorem claim_C6_cex :
    (campusAsk ragAllFail [] "u@x" "what are the fees" ["library"] []
        Json.null).sessionAppend = none := rfl

/-- C6 (amended): with zero accessible stores the campus-mode request
short-circuits with exactly "No RAG stores available for your account." and
`storesUsed: []`; no classification or retrieval is consulted (the result is
the same for any classifier output and any RAG behaviour, and no store is
queried), but the turn is NOT recorded: no session message and no provider
log is written. -/
theorem claim_C6_amended (rag rag2 : String → String → RagOutcome)
    (email question : String) (stores stores2 : List String)
    (sq sq2 : List (String × String)) (ua ua2 : Json) :
    (campusAsk rag [] email question stores sq ua).response.answer
        = "No RAG stores available for your account." ∧
    (campusAsk rag [] email question stores sq ua).response.storesUsed = some [] ∧
    (campusAsk rag [] email question stores sq ua).sessionAppend = none ∧
    (campusAsk rag [] email question stores sq ua).providerLogs = [] ∧
    (campusAsk rag [] email question stores sq ua).queried = [] ∧
    campusAsk rag [] email question stores sq ua
        = campusAsk rag2 [] email question stores2 sq2 ua2 :=
  ⟨rfl, rfl, rfl, rfl, rfl, rfl⟩

/-- C7: when the classifier selects zero stores (and the user has at least one
accessible store), the response's answer is exactly the fixed none-can-answer
text with `storesUsed: []`, the classifier's `unanswered` fragments are echoed
in the response and persisted as the appended message's `unresolvedParts`, and
no store is queried. -/
theorem claim_C7 (rag : String → String → RagOutcome) (accessible : List StoreRef)
    (email question : String) (sq : List (String × String)) (ua : Json)
    (hacc : accessible ≠ []) :
    (campusAsk rag accessible email question [] sq ua).response.answer
        = "Sorry, none of the departments can answer this." ∧
    (campusAsk rag accessible email question [] sq ua).response.storesUsed = some [] ∧
    (campusAsk rag accessible email question [] sq ua).response.unanswered = some ua ∧
    (campusAsk rag accessible email question [] sq ua).queried = [] ∧
    (campusAsk rag accessible email question [] sq ua).sessionAppend
        = some { question := some question,
                 answer := "Sorry, none of the departments can answer this.",
                 storesUsed := [], grounding := [], unresolvedParts := some ua,
                 searchedIn := none, ragError := false, ragResultCount := none } := by
  simp [campusAsk, List.length_map, List.length_eq_zero, hacc]

/-- C7 (witness): the zero-stores classification short-circuit at a concrete
request. -/
theorem claim_C7_witness :
    (campusAsk ragAllFail [refLibrary] "u@x" "q" [] []
        (Json.arr [Json.str "tuition part"])).response.unanswered
      = some (Json.arr [Json.str "tuition part"]) :=
  (claim_C7 ragAllFail [refLibrary] "u@x" "q" []
    (Json.arr [Json.str "tuition part"]) (List.cons_ne_nil _ _)).2.2.1

/-- C8: when the retrieval loop processes all selected stores, the response
exposes at most the first 10 collected grounding fragments, reports the full
sequence's length as `totalGrounding`, and the appended session message
carries the full uncapped sequence. -/
theorem claim_C8 (rag : String → String → RagOutcome) (accessible : List StoreRef)
    (email question : String) (stores : List String) (sq : List (String × String))
    (ua : Json) (rs : List RagResult) (g : List String) (qs : List String)
    (hacc : accessible ≠ []) (hne : stores ≠ [])
    (hloop : ragLoop rag sq question stores = .ok rs g qs) :
    (campusAsk rag accessible email question stores sq ua).response.grounding
        = some (g.take 10) ∧
    (campusAsk rag accessible email question stores sq ua).response.totalGrounding
        = some g.length ∧
    ∃ m, (campusAsk rag accessible email question stores sq ua).sessionAppend = some m
         ∧ m.grounding = g := by
  simp [campusAsk, List.length_map, List.length_eq_zero, hacc, hne, hloop]

/-- C8 (witness): one store contributing one grounding fragment yields that
fragment in the response and a total count of 1. -/
theorem claim_C8_witness :
    (campusAsk ragAllOk [refLibrary, refFinance] "u@x" "q"
        ["library", "finance"] [] Json.null).response.grounding = some ["factA"] ∧
    (campusAsk ragAllOk [refLibrary, refFinance] "u@x" "q"
        ["library", "finance"] [] Json.null).response.totalGrounding = some 1 := by
  have h := claim_C8 ragAllOk [refLibrary, refFinance] "u@x" "q" ["library", "finance"]
    [] Json.null
    [{ store := "library", answerText := "ansA", groundingChunks := [chunkA] },
     { store := "finance", answerText := "ansB", groundingChunks := [] }]
    ["factA"] ["library", "finance"]
    (List.cons_ne_nil _ _) (List.cons_ne_nil _ _) rfl
  exact ⟨h.1, h.2.1⟩

end SmartUni
